import Mathlib

/-!
Shallow embedding of the crawl orchestrator of `laptop_selector`
(src/src/bin/laptop_scrapper.rs, with record types from src/src/lib.rs).

External effects (the WebDriver session, the fuzzy matcher of the
`fuzzy_matcher` crate, the SQLite store) are modelled as explicit
parameters or as event traces; every definition mirrors the Rust control
flow of the cited source lines.
-/

namespace LaptopSelector

/-- `Cpu` record from src/src/lib.rs lines 31-36 (used for both the cpu and
the gpu benchmark catalogs). -/
structure Cpu where
  id : Int
  name : String
  url : String
  score : Int
deriving DecidableEq, Repr

/-- One pass of the inner `for device in devices` loop of `get_best_match`
(laptop_scrapper.rs lines 38-45) for the catalog entry `cpu` at position
`index`: the accumulator is the pair `(cpu_index, best_score)` and is
replaced exactly when the fuzzy score of some candidate is strictly above
the best score so far.  The fuzzy matcher (`SkimMatcherV2.fuzzy_match`,
an external crate) is passed in as the function `fuzzy`; `none` models a
failed match. -/
def bestStep (fuzzy : String → String → Option Int) (devices : List String)
    (cpu : Cpu) (index : Nat) (acc : Nat × Int) : Nat × Int :=
  devices.foldl
    (fun acc device =>
      match fuzzy device cpu.name with
      | some score => if score > acc.2 then (index, score) else acc
      | none => acc)
    acc

/-- The outer `for (index, cpu) in cpus.iter().enumerate()` loop of
`get_best_match` (laptop_scrapper.rs lines 37-46), carried out with an
explicit running index. -/
def gbmAux (fuzzy : String → String → Option Int) (devices : List String) :
    List Cpu → Nat → Nat × Int → Nat × Int
  | [], _, acc => acc
  | cpu :: rest, index, acc =>
      gbmAux fuzzy devices rest (index + 1) (bestStep fuzzy devices cpu index acc)

/-- `get_best_match` (laptop_scrapper.rs lines 33-48): starts from
`cpu_index = 0`, `best_score = 0` and returns the final `cpu_index`. -/
def get_best_match (fuzzy : String → String → Option Int)
    (devices : List String) (cpus : List Cpu) : Nat :=
  (gbmAux fuzzy devices cpus 0 (0, 0)).1

/-- The callers index the catalog with the returned value
(`&cpus[get_best_match(&devices, &cpus)]`, laptop_scrapper.rs lines
146-147, 384-385, 510-511); `none` models the Rust out-of-bounds panic. -/
def index_catalog (cpus : List Cpu) (i : Nat) : Option Cpu :=
  cpus.get? i

/-- `bestStep` either keeps the accumulator or moves the index to the
position it was given. -/
theorem bestStep_fst (fuzzy : String → String → Option Int)
    (devices : List String) (cpu : Cpu) (index : Nat) (acc : Nat × Int) :
    (bestStep fuzzy devices cpu index acc).1 = acc.1 ∨
      (bestStep fuzzy devices cpu index acc).1 = index := by
  unfold bestStep
  induction devices generalizing acc with
  | nil => exact Or.inl rfl
  | cons d ds ih =>
      simp only [List.foldl_cons]
      rcases ih (match fuzzy d cpu.name with
        | some score => if score > acc.2 then (index, score) else acc
        | none => acc) with h | h
      · rw [h]
        cases hm : fuzzy d cpu.name with
        | none => exact Or.inl rfl
        | some score =>
            by_cases hs : score > acc.2
            · simp [hs]
            · simp [hs]
      · exact Or.inr h

/-- If every fuzzy score offered to `bestStep` is at most the current best
score, the accumulator survives unchanged. -/
theorem bestStep_no_positive (fuzzy : String → String → Option Int)
    (devices : List String) (cpu : Cpu) (index : Nat) (acc : Nat × Int)
    (h : ∀ d ∈ devices, ∀ s, fuzzy d cpu.name = some s → s ≤ acc.2) :
    bestStep fuzzy devices cpu index acc = acc := by
  unfold bestStep
  induction devices with
  | nil => rfl
  | cons d ds ih =>
      simp only [List.foldl_cons]
      have hstep : (match fuzzy d cpu.name with
          | some score => if score > acc.2 then (index, score) else acc
          | none => acc) = acc := by
        cases hm : fuzzy d cpu.name with
        | none => rfl
        | some score =>
            have hle : score ≤ acc.2 := h d (List.mem_cons_self d ds) score hm
            simp [not_lt.mpr hle]
      rw [hstep]
      exact ih (fun d hd s hs => h d (List.mem_cons_of_mem _ hd) s hs)

/-- The final index of `gbmAux` is the initial one or lies in the range of
positions it visited. -/
theorem gbmAux_fst_bound (fuzzy : String → String → Option Int)
    (devices : List String) :
    ∀ (cpus : List Cpu) (index : Nat) (acc : Nat × Int),
      (gbmAux fuzzy devices cpus index acc).1 = acc.1 ∨
        (index ≤ (gbmAux fuzzy devices cpus index acc).1 ∧
          (gbmAux fuzzy devices cpus index acc).1 < index + cpus.length) := by
  intro cpus
  induction cpus with
  | nil => intro index acc; exact Or.inl rfl
  | cons cpu rest ih =>
      intro index acc
      simp only [gbmAux]
      rcases ih (index + 1) (bestStep fuzzy devices cpu index acc) with h | h
      · rw [h]
        rcases bestStep_fst fuzzy devices cpu index acc with h1 | h1
        · exact Or.inl h1
        · exact Or.inr ⟨le_of_eq h1.symm, by rw [h1]; simp [Nat.lt_add_of_pos_right]⟩
      · refine Or.inr ⟨le_trans (Nat.le_succ index) h.1, ?_⟩
        calc (gbmAux fuzzy devices rest (index + 1)
                (bestStep fuzzy devices cpu index acc)).1
            < index + 1 + rest.length := h.2
          _ = index + (cpu :: rest).length := by simp [List.length_cons]; ring

/-- If no fuzzy score anywhere is positive, `gbmAux` keeps the initial
accumulator `(i, 0)` whole. -/
theorem gbmAux_no_positive (fuzzy : String → String → Option Int)
    (devices : List String) :
    ∀ (cpus : List Cpu) (index i : Nat),
      (∀ d ∈ devices, ∀ c ∈ cpus, ∀ s, fuzzy d c.name = some s → s ≤ 0) →
      gbmAux fuzzy devices cpus index (i, 0) = (i, 0) := by
  intro cpus
  induction cpus with
  | nil => intro index i _; rfl
  | cons cpu rest ih =>
      intro index i h
      simp only [gbmAux]
      have hstep : bestStep fuzzy devices cpu index (i, 0) = (i, 0) :=
        bestStep_no_positive fuzzy devices cpu index (i, 0)
          (fun d hd s hs => h d hd cpu (List.mem_cons_self cpu rest) s hs)
      rw [hstep]
      exact ih (index + 1) i
        (fun d hd c hc s hs => h d hd c (List.mem_cons_of_mem _ hc) s hs)

/-- C4: `get_best_match` applied to an empty candidate list returns index 0,
and when no (candidate, catalog entry) pair has a fuzzy score above zero it
also returns index 0, the "unknown" sentinel position
(laptop_scrapper.rs lines 33-48: `best_score` starts at 0 and `cpu_index`
moves only on a strictly larger score). -/
theorem get_best_match_sentinel (fuzzy : String → String → Option Int)
    (devices : List String) (cpus : List Cpu) :
    get_best_match fuzzy [] cpus = 0 ∧
      ((∀ d ∈ devices, ∀ c ∈ cpus, ∀ s, fuzzy d c.name = some s → s ≤ 0) →
        get_best_match fuzzy devices cpus = 0) := by
  constructor
  · unfold get_best_match
    have h : gbmAux fuzzy [] cpus 0 (0, 0) = (0, 0) :=
      gbmAux_no_positive fuzzy [] cpus 0 0 (fun d hd => absurd hd (List.not_mem_nil d))
    rw [h]
  · intro h
    unfold get_best_match
    rw [gbmAux_no_positive fuzzy devices cpus 0 0 h]

/-- Witness for C4 at a concrete input: one candidate, two catalog entries,
a matcher that never scores above zero. -/
theorem get_best_match_sentinel_witness :
    get_best_match (fun _ _ => none) ["Xyzzy Unknown Chip"]
      [⟨0, "Unknown cpu", "", 0⟩, ⟨1, "Intel Core i5", "u", 100⟩] = 0 :=
  (get_best_match_sentinel (fun _ _ => none) ["Xyzzy Unknown Chip"]
      [⟨0, "Unknown cpu", "", 0⟩, ⟨1, "Intel Core i5", "u", 100⟩]).2
    (by intro d hd c hc s hs; cases hs)

/-- C10: on a non-empty catalog `get_best_match` returns an index strictly
below the catalog length, so the indexing `&cpus[...]` at the call sites
(laptop_scrapper.rs lines 146-147, 384-385, 510-511) stays in bounds; on an
empty catalog it returns 0 and the indexing is out of bounds (a Rust
panic, modelled by `index_catalog` returning `none`). -/
theorem get_best_match_in_bounds (fuzzy : String → String → Option Int)
    (devices : List String) (cpus : List Cpu) :
    (cpus ≠ [] →
      get_best_match fuzzy devices cpus < cpus.length ∧
        (index_catalog cpus (get_best_match fuzzy devices cpus)).isSome) ∧
      (get_best_match fuzzy devices [] = 0 ∧
        index_catalog [] (get_best_match fuzzy devices []) = none) := by
  constructor
  · intro hne
    have hlen : 0 < cpus.length := List.length_pos.mpr hne
    have hb : get_best_match fuzzy devices cpus < cpus.length := by
      unfold get_best_match
      rcases gbmAux_fst_bound fuzzy devices cpus 0 (0, 0) with h | h
      · rw [h]; exact hlen
      · simpa using h.2
    refine ⟨hb, ?_⟩
    unfold index_catalog
    rw [List.get?_eq_get hb]
    simp
  · have h0 : get_best_match fuzzy devices [] = 0 := by
      unfold get_best_match
      rw [gbmAux_no_positive fuzzy devices [] 0 0
        (fun d hd c hc => absurd hc (List.not_mem_nil c))]
    exact ⟨h0, by rw [h0]; rfl⟩

/-- Witness for C10 at a concrete non-empty catalog. -/
theorem get_best_match_in_bounds_witness :
    get_best_match (fun _ _ => none) ["Intel"]
        [⟨0, "Unknown cpu", "", 0⟩] < 1 ∧
      (index_catalog [⟨0, "Unknown cpu", "", 0⟩]
        (get_best_match (fun _ _ => none) ["Intel"]
          [⟨0, "Unknown cpu", "", 0⟩])).isSome := by
  have h := (get_best_match_in_bounds (fun _ _ => none) ["Intel"]
      [⟨0, "Unknown cpu", "", 0⟩]).1 (by simp)
  simpa using h

/-! ## Price extraction (laptop_scrapper.rs lines 366-374) -/

/-- Value of a digits-only character list, as Rust's integer parsing
accumulates it. -/
def digitsVal (l : List Char) : Nat :=
  l.foldl (fun a c => a * 10 + (c.toNat - 48)) 0

/-- `i64::MAX`, the overflow bound of Rust's `parse::<i64>()`. -/
def I64_MAX : Nat := 9223372036854775807

/-- Rust's `parse::<i64>()` applied to a digits-only string: the empty
string is a `ParseIntError`, as is overflow past `i64::MAX`. -/
def rust_parse_i64_digits (l : List Char) : Option Int :=
  if l.isEmpty then none
  else if digitsVal l ≤ I64_MAX then some (digitsVal l : Int) else none

/-- The price pipeline of the listing loop (laptop_scrapper.rs lines
366-374): `.chars().filter(char::is_ascii_digit).collect::<String>()
.parse()?` — keep the ASCII digits, parse the remainder. -/
def parse_price (raw : String) : Option Int :=
  rust_parse_i64_digits (raw.toList.filter Char.isDigit)

/-- Error alphabet of a listing-element extraction; `parseIntError` is the
`std::num::ParseIntError` wrapped into `Error::ParseInt` by the `?` at
line 374. -/
inductive ScrapeError
  | parseIntError
deriving DecidableEq, Repr

/-- The transient extraction result assembled by the listing loop for one
`.catalog-grid__cell` element (laptop_scrapper.rs lines 338-380). -/
structure RawListing where
  id : Int
  image : String
  description : String
  composition : String
  price : Int
  url : String
deriving DecidableEq, Repr

/-- Assembly of one listing element: the price text is parsed after the
digit filter, and a parse failure propagates out of the task via `?`
(laptop_scrapper.rs line 374) instead of producing a record. -/
def extract_listing (id : Int) (image description composition priceRaw url : String) :
    Except ScrapeError RawListing :=
  match parse_price priceRaw with
  | some p => Except.ok ⟨id, image, description, composition, p, url⟩
  | none => Except.error ScrapeError.parseIntError

/-- C5: price extraction keeps exactly the digits and parses them
(so raw text with thousands separators and a currency sign such as
"23 999 ₴" yields 23999); when no digits remain the parse yields no value
and the listing step fails with the propagated `ParseIntError` — no record
with a zero or default price is produced. -/
theorem price_extraction_spec :
    parse_price "23 999 ₴" = some 23999 ∧
      (∀ raw : String, raw.toList.filter Char.isDigit = [] →
        parse_price raw = none) ∧
      (∀ (id : Int) (image description composition raw url : String),
        parse_price raw = none →
          extract_listing id image description composition raw url =
              Except.error ScrapeError.parseIntError ∧
            ∀ r : RawListing,
              extract_listing id image description composition raw url ≠
                Except.ok r) := by
  refine ⟨by decide, ?_, ?_⟩
  · intro raw hraw
    unfold parse_price
    rw [hraw]
    rfl
  · intro id image description composition raw url hnone
    unfold extract_listing
    rw [hnone]
    exact ⟨rfl, fun r h => by cases h⟩

/-- Witness for C5 at a concrete digit-free price text. -/
theorem price_extraction_spec_witness :
    extract_listing 7 "img" "desc" "" "грн" "u" =
        Except.error ScrapeError.parseIntError ∧
      ∀ r : RawListing, extract_listing 7 "img" "desc" "" "грн" "u" ≠ Except.ok r :=
  price_extraction_spec.2.2 7 "img" "desc" "" "грн" "u"
    (price_extraction_spec.2.1 "грн" (by decide))

/-! ## Rendered-DOM stabilization wait
(laptop_scrapper.rs lines 236-242, 282-288, 329-335: identical loops). -/

/-- The loop guard `row_count == 0 || row_count != rows.len()`. -/
def stab_continue (row_count rows : Nat) : Bool :=
  row_count == 0 || row_count != rows

/-- The stabilization loop.  `q i` is the element count returned by the
`(i+1)`-th `find_all` query; the state is `last` (index of the query whose
result is currently held in `rows = q last`) and `row_count` (the count
held from the previous query, initially 0).  While the guard holds the
loop stores the current count and re-queries; on exit it ends holding
query `last`.  `fuel` bounds the modelled unrolling: `none` means the loop
was still running (the Rust loop has no bound and can poll forever). -/
def stabilize_loop (q : Nat → Nat) : Nat → Nat → Nat → Option Nat
  | 0, _, _ => none
  | fuel + 1, last, row_count =>
      if stab_continue row_count (q last) then
        stabilize_loop q fuel (last + 1) (q last)
      else some last

/-- The loop as entered by the code: `row_count = 0` and the first query
already issued. -/
def stabilize (q : Nat → Nat) (fuel : Nat) : Option Nat :=
  stabilize_loop q fuel 0 0

/-- Invariant proof for the stabilization loop: from a state holding query
`last` (with `row_count` the previous count), exiting at `k` means the
last two counts `q (k-1)`, `q k` are equal and non-zero, and every
consecutive pair tested before `k` was zero or unequal. -/
theorem stabilize_loop_spec (q : Nat → Nat) :
    ∀ (fuel last k : Nat),
      stabilize_loop q fuel last (if last = 0 then 0 else q (last - 1)) = some k →
      last ≤ k ∧ 1 ≤ k ∧ q (k - 1) = q k ∧ q k ≠ 0 ∧
        (∀ j, 1 ≤ j → last ≤ j → j < k → q (j - 1) = 0 ∨ q (j - 1) ≠ q j) := by
  intro fuel
  induction fuel with
  | zero => intro last k h; cases h
  | succ fuel ih =>
      intro last k h
      rw [stabilize_loop] at h
      by_cases hc : stab_continue (if last = 0 then 0 else q (last - 1)) (q last) = true
      · rw [if_pos hc] at h
        have hrec : stabilize_loop q fuel (last + 1)
            (if last + 1 = 0 then 0 else q (last + 1 - 1)) = some k := by
          simpa using h
        obtain ⟨h1, h2, h3, h4, h5⟩ := ih (last + 1) k hrec
        refine ⟨le_trans (Nat.le_succ last) h1, h2, h3, h4, ?_⟩
        intro j hj1 hjl hjk
        rcases Nat.lt_or_ge j (last + 1) with hlt | hge
        · have hje : j = last := Nat.le_antisymm (Nat.lt_succ_iff.mp hlt) hjl
          have hjpos : last ≠ 0 := by
            rw [hje] at hj1
            exact Nat.one_le_iff_ne_zero.mp hj1
          rw [if_neg hjpos] at hc
          simp only [stab_continue, Bool.or_eq_true, beq_iff_eq, bne_iff_ne,
            ne_eq] at hc
          rw [hje]
          exact hc
        · exact h5 j hj1 hge hjk
      · rw [if_neg hc] at h
        have hk : k = last := by
          injection h with h
          exact h.symm
        subst hk
        simp only [stab_continue, Bool.or_eq_true, beq_iff_eq, bne_iff_ne,
          not_or, not_not, Bool.not_eq_true] at hc
        push_neg at hc
        obtain ⟨hne, heq⟩ := hc
        have hkpos : k ≠ 0 := by
          intro h0
          subst h0
          simp at hne
        rw [if_neg hkpos] at hne heq
        refine ⟨le_refl k, Nat.one_le_iff_ne_zero.mpr hkpos, heq, ?_, ?_⟩
        · rw [← heq]; exact hne
        · intro j hj1 hjl hjk
          exact absurd hjl (Nat.not_le.mpr hjk)

/-- C7: the stabilization wait exits its polling loop only when two
consecutive element-count queries return equal, non-zero counts — on exit
at query `k`, `q (k-1) = q k ≠ 0` — and while consecutive counts differ or
the count is zero (every tested pair before `k`) the loop re-queries. -/
theorem stabilization_wait_spec (q : Nat → Nat) (fuel k : Nat)
    (h : stabilize q fuel = some k) :
    1 ≤ k ∧ q (k - 1) = q k ∧ q k ≠ 0 ∧
      (∀ j, 1 ≤ j → j < k → q (j - 1) = 0 ∨ q (j - 1) ≠ q j) := by
  have hs : stabilize_loop q fuel 0 (if (0 : Nat) = 0 then 0 else q (0 - 1)) = some k := by
    simpa [stabilize] using h
  obtain ⟨_, h2, h3, h4, h5⟩ := stabilize_loop_spec q fuel 0 k hs
  exact ⟨h2, h3, h4, fun j hj1 hjk => h5 j hj1 (Nat.zero_le j) hjk⟩

/-- Witness for C7: a page whose count settles at 3 immediately — the loop
exits after the second query. -/
theorem stabilization_wait_spec_witness :
    1 ≤ 1 ∧ (fun _ : Nat => 3) (1 - 1) = (fun _ : Nat => 3) 1 ∧
      (fun _ : Nat => 3) 1 ≠ 0 ∧
      (∀ j, 1 ≤ j → j < 1 →
        (fun _ : Nat => 3) (j - 1) = 0 ∨
          (fun _ : Nat => 3) (j - 1) ≠ (fun _ : Nat => 3) j) :=
  stabilization_wait_spec (fun _ => 3) 5 1 (by decide)

/-! ## Catalog store upsert (laptop_scrapper.rs lines 153-208, 388-467,
513-534) -/

/-- A persisted row of the `laptop` table (the `composition` column is
nullable: `none` = not yet enriched). -/
structure LaptopRow where
  image : String
  description : String
  composition : Option String
  url : String
  price : Int
  cpu_id : Int
  gpu_id : Int
deriving DecidableEq, Repr

/-- The `laptop` table keyed by its primary key `id`. -/
def LaptopTable := Int → Option LaptopRow

/-- The upsert issued when the incoming composition is empty
(laptop_scrapper.rs lines 154-183 and 389-417): `INSERT ... ON
CONFLICT(id) DO UPDATE SET` listing every column except `composition` —
on conflict the stored composition survives while image, description,
url, price, cpu_id and gpu_id take the incoming values. -/
def upsert_without_composition (table : LaptopTable) (id : Int)
    (image description url : String) (price cpu_id gpu_id : Int) : LaptopTable :=
  fun key =>
    if key = id then
      match table id with
      | none =>
          some { image := image, description := description,
                 composition := none, url := url, price := price,
                 cpu_id := cpu_id, gpu_id := gpu_id }
      | some old =>
          some { image := image, description := description,
                 composition := old.composition, url := url, price := price,
                 cpu_id := cpu_id, gpu_id := gpu_id }
    else table key

/-- The upsert issued when the incoming composition is present
(`INSERT OR REPLACE`, laptop_scrapper.rs lines 185-207, 445-466, 513-534):
every column, composition included, takes the incoming value. -/
def insert_or_replace_full (table : LaptopTable) (id : Int)
    (image description : String) (composition : Option String)
    (url : String) (price cpu_id gpu_id : Int) : LaptopTable :=
  fun key =>
    if key = id then
      some { image := image, description := description,
             composition := composition, url := url, price := price,
             cpu_id := cpu_id, gpu_id := gpu_id }
    else table key

/-- An enriched stored row for the counterexample: id 5, already holding a
composition. -/
def ex_row : LaptopRow :=
  { image := "old.jpg", description := "Lenovo IdeaPad",
    composition := some "Intel i5 / RTX 3050", url := "old-url",
    price := 23999, cpu_id := 1, gpu_id := 2 }

/-- A store holding only the enriched row `ex_row` at key 5. -/
def ex_table : LaptopTable :=
  fun key => if key = 5 then some ex_row else none

/-- C1 counterexample: against the enriched record at id 5, the
empty-composition upsert with a new image and price is NOT a no-op — the
stored row changes (its image becomes "new.jpg"), refuting "leaves every
other field of that record unchanged". -/
theorem upsert_empty_composition_not_noop :
    ex_table 5 = some ex_row ∧
      ex_row.composition = some "Intel i5 / RTX 3050" ∧
      upsert_without_composition ex_table 5 "new.jpg" "Lenovo IdeaPad"
          "new-url" 19999 1 2 5 ≠ ex_table 5 := by
  refine ⟨by decide, rfl, by decide⟩

/-- C1 amended: the empty-composition upsert against an existing record
preserves the stored composition (whatever it is, so an enriched record is
never regressed) while overwriting image, description, url, price, cpu_id
and gpu_id with the incoming values; rows at other keys are untouched. -/
theorem upsert_empty_composition_merge (table : LaptopTable) (id : Int)
    (image description url : String) (price cpu_id gpu_id : Int)
    (old : LaptopRow) (h : table id = some old) :
    upsert_without_composition table id image description url price cpu_id gpu_id id =
        some { image := image, description := description,
               composition := old.composition, url := url, price := price,
               cpu_id := cpu_id, gpu_id := gpu_id } ∧
      ∀ key, key ≠ id →
        upsert_without_composition table id image description url price cpu_id gpu_id key =
          table key := by
  unfold upsert_without_composition
  constructor
  · simp [h]
  · intro key hk
    simp [hk]

/-- Witness for the amended C1 at the concrete enriched store. -/
theorem upsert_empty_composition_merge_witness :
    upsert_without_composition ex_table 5 "new.jpg" "Lenovo IdeaPad"
        "new-url" 19999 1 2 5 =
        some { image := "new.jpg", description := "Lenovo IdeaPad",
               composition := ex_row.composition, url := "new-url",
               price := 19999, cpu_id := 1, gpu_id := 2 } ∧
      ∀ key, key ≠ 5 →
        upsert_without_composition ex_table 5 "new.jpg" "Lenovo IdeaPad"
            "new-url" 19999 1 2 key = ex_table key :=
  upsert_empty_composition_merge ex_table 5 "new.jpg" "Lenovo IdeaPad"
    "new-url" 19999 1 2 ex_row (by decide)

/-! ## Field-level composition retry (laptop_scrapper.rs lines 50-83,
357-365, 502-507) -/

/-- The bounded retry loop shared by `try_load_by_element` and
`try_load_by_client`: `attempts i` is the result of the `(i+1)`-th
`find(Locator::Css(...))` call (`some text` = element found with that
text, `none` = element-not-found error); `n` retries remain, `i` is the
index of the next attempt, `sub` the result held so far.  The loop breaks
as soon as a result is ok. -/
def retry_find (attempts : Nat → Option String) :
    Nat → Nat → Option String → Option String
  | 0, _, sub => sub
  | n + 1, i, sub =>
      match sub with
      | some t => some t
      | none => retry_find attempts n (i + 1) (attempts i)

/-- `try_load_by_element` (laptop_scrapper.rs lines 50-67): one find,
then — only when `rep` is set — up to 3 retries (1-second delay) while the
result is an error. -/
def try_load_by_element (attempts : Nat → Option String) (rep : Bool) :
    Option String :=
  if rep then retry_find attempts 3 1 (attempts 0) else attempts 0

/-- `try_load_by_client` (laptop_scrapper.rs lines 69-83): one find, then
always up to 3 retries (5-second delay) while the result is an error. -/
def try_load_by_client (attempts : Nat → Option String) : Option String :=
  retry_find attempts 3 1 (attempts 0)

/-- Listing-page composition extraction (laptop_scrapper.rs lines
357-365): three selector fallbacks, each through `try_load_by_element`
(retries only for the first listing element of the page); when all three
fail the composition is the empty string and the loop continues. -/
def listing_composition (sel1 sel2 sel3 : Nat → Option String)
    (first_time : Bool) : String :=
  match try_load_by_element sel1 first_time with
  | some t => t
  | none =>
      match try_load_by_element sel2 first_time with
      | some t => t.replace "•" "/"
      | none =>
          match try_load_by_element sel3 first_time with
          | some t => t
          | none => ""

/-- A WebDriver command failure (fantoccini's `CmdError`), as propagated
by `?`. -/
inductive CmdErr
  | elementNotFound
deriving DecidableEq, Repr

/-- Detail-page composition extraction (laptop_scrapper.rs lines 502-507):
`.product-about__brief` through `try_load_by_client`; on failure the
`characteristics-simple` selector through `try_load_by_client` followed by
`?` — failure of this second chain propagates the error out of the task
instead of degrading to empty text. -/
def detail_composition (sel1 sel2 : Nat → Option String) :
    Except CmdErr String :=
  match try_load_by_client sel1 with
  | some t => Except.ok t
  | none =>
      match try_load_by_client sel2 with
      | some t => Except.ok (t.replace "•" "/")
      | none => Except.error CmdErr.elementNotFound

/-- When every attempt fails, the retry loop ends in failure. -/
theorem retry_find_none (attempts : Nat → Option String)
    (h : ∀ i, attempts i = none) :
    ∀ (n i : Nat) (sub : Option String), sub = none →
      retry_find attempts n i sub = none := by
  intro n
  induction n with
  | zero => intro i sub hs; simpa [retry_find] using hs
  | succ n ih =>
      intro i sub hs
      subst hs
      simp only [retry_find]
      exact ih (i + 1) (attempts i) (h i)

/-- C6 counterexample: on a detail page whose composition selectors never
match (every attempt of both chains fails), the extraction does not treat
the composition as empty text and continue — it yields the propagated
element-not-found error, failing the `RozetkaLaptopDescription` task. -/
theorem detail_composition_error_on_exhaustion :
    detail_composition (fun _ => none) (fun _ => none) =
        Except.error CmdErr.elementNotFound ∧
      detail_composition (fun _ => none) (fun _ => none) ≠ Except.ok "" := by
  constructor
  · rfl
  · intro h
    cases h

/-- C6 amended: after the bounded retry budget is exhausted (every attempt
of every selector fails), a listing page degrades the composition to empty
text and the task continues, but a detail page fails with the propagated
element-not-found error from the second selector chain. -/
theorem composition_retry_exhaustion (sel1 sel2 sel3 : Nat → Option String)
    (first_time : Bool)
    (h1 : ∀ i, sel1 i = none) (h2 : ∀ i, sel2 i = none)
    (h3 : ∀ i, sel3 i = none) :
    listing_composition sel1 sel2 sel3 first_time = "" ∧
      detail_composition sel1 sel2 = Except.error CmdErr.elementNotFound := by
  have load1 : try_load_by_element sel1 first_time = none := by
    unfold try_load_by_element
    cases first_time with
    | false => simpa using h1 0
    | true => exact retry_find_none sel1 h1 3 1 (sel1 0) (h1 0)
  have load2 : try_load_by_element sel2 first_time = none := by
    unfold try_load_by_element
    cases first_time with
    | false => simpa using h2 0
    | true => exact retry_find_none sel2 h2 3 1 (sel2 0) (h2 0)
  have load3 : try_load_by_element sel3 first_time = none := by
    unfold try_load_by_element
    cases first_time with
    | false => simpa using h3 0
    | true => exact retry_find_none sel3 h3 3 1 (sel3 0) (h3 0)
  have client1 : try_load_by_client sel1 = none :=
    retry_find_none sel1 h1 3 1 (sel1 0) (h1 0)
  have client2 : try_load_by_client sel2 = none :=
    retry_find_none sel2 h2 3 1 (sel2 0) (h2 0)
  constructor
  · unfold listing_composition
    rw [load1, load2, load3]
  · unfold detail_composition
    rw [client1, client2]

/-- Witness for the amended C6 with always-failing selectors. -/
theorem composition_retry_exhaustion_witness :
    listing_composition (fun _ => none) (fun _ => none) (fun _ => none) true = "" ∧
      detail_composition (fun _ => none) (fun _ => none) =
        Except.error CmdErr.elementNotFound :=
  composition_retry_exhaustion (fun _ => none) (fun _ => none) (fun _ => none)
    true (fun _ => rfl) (fun _ => rfl) (fun _ => rfl)

/-! ## ResolveDetail spawn decision (laptop_scrapper.rs lines 388,
419-442) -/

/-- The fields of lib.rs's `LaptopView` (lines 86-101) consulted by the
spawn decision.  The `composition` column is nullable and the check at
laptop_scrapper.rs line 421 reads it through `is_some()`, so it is
embedded as an `Option`. -/
structure LaptopView where
  id : Int
  description : String
  composition : Option String
deriving DecidableEq, Repr

/-- An existing record is enriched when its composition is present and
non-empty. -/
def enriched (l : LaptopView) : Bool :=
  match l.composition with
  | some c => !c.isEmpty
  | none => false

/-- The `RozetkaLaptopDescription` spawn decision for one extracted
listing (laptop_scrapper.rs lines 388-442): only an empty-composition
listing reaches the check; a found existing record whose
`composition.is_some()` prints the skip notice and `continue`s (no
spawn), otherwise the detail subtask is spawned. -/
def spawns_resolve_detail (laptops : List LaptopView) (id : Int)
    (composition : String) : Bool :=
  if composition.isEmpty then
    match laptops.find? (fun l => l.id == id) with
    | some l => !l.composition.isSome
    | none => true
  else false

/-- C8: a listing with empty composition whose id matches an existing
enriched record never spawns a detail subtask; and whenever a detail
subtask is spawned, the listing's composition was empty and any matching
existing record was unenriched. -/
theorem skip_enriched_spec (laptops : List LaptopView) (id : Int)
    (composition : String) :
    (∀ l, composition.isEmpty = true →
      laptops.find? (fun x => x.id == id) = some l → enriched l = true →
      spawns_resolve_detail laptops id composition = false) ∧
      (spawns_resolve_detail laptops id composition = true →
        composition.isEmpty = true ∧
          ∀ l, laptops.find? (fun x => x.id == id) = some l →
            enriched l = false) := by
  constructor
  · intro l hemp hfind henr
    have hsome : l.composition.isSome = true := by
      unfold enriched at henr
      cases hc : l.composition with
      | none => rw [hc] at henr; cases henr
      | some c => rfl
    simp [spawns_resolve_detail, hemp, hfind, hsome]
  · intro hsp
    by_cases hemp : composition.isEmpty = true
    · refine ⟨hemp, ?_⟩
      intro l hfind
      simp only [spawns_resolve_detail, hemp, if_true, hfind] at hsp
      have hnone : l.composition = none := by
        cases hc : l.composition with
        | none => rfl
        | some c => rw [hc] at hsp; cases hsp
      unfold enriched
      rw [hnone]
    · exfalso
      simp only [spawns_resolve_detail] at hsp
      rw [if_neg hemp] at hsp
      cases hsp

/-- Witness for C8: an existing enriched record for id 7 suppresses the
detail subtask for a fresh empty-composition listing of id 7. -/
theorem skip_enriched_spec_witness :
    spawns_resolve_detail [⟨7, "Lenovo IdeaPad", some "Intel i5 / RTX 3050"⟩]
      7 "" = false :=
  (skip_enriched_spec [⟨7, "Lenovo IdeaPad", some "Intel i5 / RTX 3050"⟩] 7 "").1
    ⟨7, "Lenovo IdeaPad", some "Intel i5 / RTX 3050"⟩ (by decide) (by decide)
    (by decide)

/-! ## Pagination fan-out (laptop_scrapper.rs lines 469-491) -/

/-- Value of a character list under Rust integer parsing: `none` when the
list is empty or holds a non-digit. -/
def parse_digits (l : List Char) : Option Nat :=
  if l = [] then none
  else if l.all Char.isDigit then some (digitsVal l) else none

/-- Rust's `parse::<i32>()` on a string given as its character list:
optional sign, digits, `i32` bounds. -/
def rust_parse_i32 (s : List Char) : Option Int :=
  match s with
  | '+' :: rest =>
      (parse_digits rest).bind
        (fun v => if v ≤ 2147483647 then some (v : Int) else none)
  | '-' :: rest =>
      (parse_digits rest).bind
        (fun v => if v ≤ 2147483648 then some (-(v : Int)) else none)
  | l =>
      (parse_digits l).bind
        (fun v => if v ≤ 2147483647 then some (v : Int) else none)

/-- Rust's `str::split(sep)` with a character separator, over the
character list of the string: always yields at least one (possibly empty)
piece, and empty pieces around consecutive or terminal separators, exactly
as the Rust iterator does. -/
def split_char (sep : Char) : List Char → List (List Char)
  | [] => [[]]
  | c :: rest =>
      if c = sep then [] :: split_char sep rest
      else
        match split_char sep rest with
        | [] => [[c]]
        | piece :: pieces => (c :: piece) :: pieces

/-- One pass of the paginator-scan loop (laptop_scrapper.rs lines 472-479)
for one `a.pagination__link` element whose `href` attribute is `href`
(`None` = attribute absent, defaulted to ""): take the second
`/`-separated segment from the end; when present, parse the text after
the last `=` as an `i32` — the `?` at line 474 makes a parse failure fail
the task — and keep the running maximum. -/
def scan_page_link (max_page : Int) (href : Option String) :
    Except ScrapeError Int :=
  match ((split_char '/' (href.getD "").toList).reverse).get? 1 with
  | none => Except.ok max_page
  | some page_param =>
      match rust_parse_i32 (((split_char '=' page_param).getLast?).getD []) with
      | some page_number =>
          Except.ok (if page_number > max_page then page_number else max_page)
      | none => Except.error ScrapeError.parseIntError

/-- The `max_page` scan over all pagination link elements, starting from 0
(laptop_scrapper.rs lines 470-479). -/
def max_page_of_links (hrefs : List (Option String)) : Except ScrapeError Int :=
  hrefs.foldlM scan_page_link 0

/-- The subtasks a listing task constructs (the `ParserType` values passed
to `set.spawn(parse(...))`, laptop_scrapper.rs lines 427-442 and 481-489);
a pagination child carries its page number and its `spawn_from_paginator`
flag. -/
inductive SpawnedTask
  | rozetkaLaptopDescription (id : Int)
  | rozetkaLaptopList (page : Int) (spawn_from_paginator : Bool)
deriving DecidableEq, Repr

/-- The page numbers `2..=max_page` of the spawn loop at line 481. -/
def page_range (max_page : Int) : List Int :=
  (List.range (max_page - 1).toNat).map (fun j => (j : Int) + 2)

/-- The paginator block (laptop_scrapper.rs lines 469-491): skipped
entirely when `spawn_from_paginator` is false; otherwise the links are
scanned for the highest page number and one `RozetkaLaptopList` child is
spawned per page in `2..=max_page`, each constructed with the flag
literally `false` (line 485). -/
def pagination_spawns (spawn_from_paginator : Bool)
    (hrefs : List (Option String)) : Except ScrapeError (List SpawnedTask) :=
  if spawn_from_paginator then
    match max_page_of_links hrefs with
    | Except.error e => Except.error e
    | Except.ok max_page =>
        Except.ok
          (if max_page > 1 then
            (page_range max_page).map
              (fun i => SpawnedTask.rozetkaLaptopList i false)
          else [])
  else Except.ok []

/-- C2: a listing task whose `spawn_from_paginator` flag is false spawns
no pagination subtask whatever the page content; and every pagination
child a flag-true task spawns carries the flag false, so pagination
recursion stops after one level. -/
theorem pagination_termination_spec (hrefs : List (Option String)) :
    pagination_spawns false hrefs = Except.ok [] ∧
      ∀ l, pagination_spawns true hrefs = Except.ok l →
        ∀ t ∈ l, ∃ i, t = SpawnedTask.rozetkaLaptopList i false := by
  constructor
  · rfl
  · intro l hl t ht
    unfold pagination_spawns at hl
    cases hm : max_page_of_links hrefs with
    | error e =>
        rw [hm] at hl
        simp at hl
    | ok max_page =>
        rw [hm] at hl
        simp only [if_true] at hl
        injection hl with hl
        subst hl
        by_cases hgt : max_page > 1
        · rw [if_pos hgt] at ht
          obtain ⟨i, _, hti⟩ := List.mem_map.mp ht
          exact ⟨i, hti.symm⟩
        · rw [if_neg hgt] at ht
          cases ht

/-- Witness for C2: a page whose single pagination link points at page 3 —
the flag-true task spawns children for pages 2 and 3, each with the flag
false; the flag-false task spawns none. -/
theorem pagination_termination_spec_witness :
    pagination_spawns false [some "a/page=3/x"] = Except.ok [] ∧
      ∃ i, SpawnedTask.rozetkaLaptopList 2 false =
        SpawnedTask.rozetkaLaptopList i false :=
  ⟨(pagination_termination_spec [some "a/page=3/x"]).1,
    (pagination_termination_spec [some "a/page=3/x"]).2
      [SpawnedTask.rozetkaLaptopList 2 false, SpawnedTask.rozetkaLaptopList 3 false]
      (by rfl) (SpawnedTask.rozetkaLaptopList 2 false) (by decide)⟩

/-! ## Pool-slot release order in the listing task (laptop_scrapper.rs
lines 220-222, 327-500, 545-546) -/

/-- Ordered events of one `RozetkaLaptopList` task execution. -/
inductive ListEvent
  | acquirePermit
  | openSession
  | pageInteraction
  | spawnSubtask (n : Nat)
  | closeWindow
  | releasePermit
  | joinSubtask (n : Nat)
  | closeSession
deriving DecidableEq, Repr

/-- The success-path event trace of a `RozetkaLaptopList` task that spawns
`n` subtasks, in statement order: acquire the semaphore permit (line 222),
open the session (lines 225-231), do the task's own page interaction —
stabilization queries, extraction and upserts (lines 329-467) — spawning
subtasks along the way (lines 427-442, 481-489), close the window (line
493), `drop(permit)` (line 494), join every spawned subtask (lines
496-500), then the final close of window and session (lines 545-546). -/
def listing_task_trace (n : Nat) : List ListEvent :=
  [ListEvent.acquirePermit, ListEvent.openSession, ListEvent.pageInteraction]
    ++ (List.range n).map ListEvent.spawnSubtask
    ++ [ListEvent.closeWindow, ListEvent.releasePermit]
    ++ (List.range n).map ListEvent.joinSubtask
    ++ [ListEvent.closeWindow, ListEvent.closeSession]

/-- C3: in the trace of a listing task that spawns subtasks, the permit
release splits the trace so that the task's own page interaction lies
before it and no subtask join does — the pool slot is given back after the
page work and strictly before any subtask is awaited. -/
theorem permit_released_before_joins (n : Nat) :
    ∃ pre post,
      listing_task_trace n = pre ++ ListEvent.releasePermit :: post ∧
        ListEvent.pageInteraction ∈ pre ∧
        (∀ k, ListEvent.joinSubtask k ∉ pre) ∧
        (∀ k, ListEvent.joinSubtask k ∈ post → k < n) := by
  refine ⟨[ListEvent.acquirePermit, ListEvent.openSession, ListEvent.pageInteraction]
      ++ (List.range n).map ListEvent.spawnSubtask ++ [ListEvent.closeWindow],
    (List.range n).map ListEvent.joinSubtask
      ++ [ListEvent.closeWindow, ListEvent.closeSession], ?_, ?_, ?_, ?_⟩
  · simp [listing_task_trace]
  · simp
  · intro k
    simp
  · intro k hk
    simp only [List.mem_append, List.mem_map, List.mem_range] at hk
    rcases hk with ⟨j, hj, hje⟩ | hk
    · injection hje with hje
      rw [← hje]
      exact hj
    · simp at hk

/-! ## Session close on exit paths of `parse` (laptop_scrapper.rs lines
221-547) -/

/-- Events of the wrapper shared by every `parse` execution. -/
inductive CrawlEvent
  | connectSession
  | gotoPage
  | maximizeWindow
  | branchBody
  | closeWindow
  | closeSession
deriving DecidableEq, Repr

/-- Outcomes of the fallible steps of one `parse` execution: `goto`
(line 230), `maximize_window` (line 231), the `ParserType` branch body
(lines 233-543, whose many `await?` sites surface here as one outcome),
and the final `close_window` (line 545). -/
structure ParseRun where
  goto_ok : Bool
  maximize_ok : Bool
  branch_ok : Bool
  close_window_ok : Bool
deriving DecidableEq, Repr

/-- Exit behaviour of `parse` (laptop_scrapper.rs lines 221-547): every
`?` returns the error at once, and `c.close()` (line 546) runs only after
`goto`, `maximize_window`, the branch body and the final `close_window`
have all succeeded.  Returns the executed events and whether the task
ended in `Ok` (the closing `map` at lines 549-554 only logs the error, it
closes nothing). -/
def parse_exit (r : ParseRun) : List CrawlEvent × Bool :=
  if !r.goto_ok then
    ([CrawlEvent.connectSession, CrawlEvent.gotoPage], false)
  else if !r.maximize_ok then
    ([CrawlEvent.connectSession, CrawlEvent.gotoPage,
      CrawlEvent.maximizeWindow], false)
  else if !r.branch_ok then
    ([CrawlEvent.connectSession, CrawlEvent.gotoPage,
      CrawlEvent.maximizeWindow, CrawlEvent.branchBody], false)
  else if !r.close_window_ok then
    ([CrawlEvent.connectSession, CrawlEvent.gotoPage,
      CrawlEvent.maximizeWindow, CrawlEvent.branchBody,
      CrawlEvent.closeWindow], false)
  else
    ([CrawlEvent.connectSession, CrawlEvent.gotoPage,
      CrawlEvent.maximizeWindow, CrawlEvent.branchBody,
      CrawlEvent.closeWindow, CrawlEvent.closeSession], true)

/-- C9 counterexample: the exit path where `goto` fails (line 230's `?`)
finishes the task with an error and the session never closed — refuting
"the browser session is closed before the task finishes on every exit
path". -/
theorem session_left_open_on_error :
    (parse_exit ⟨false, true, true, true⟩).2 = false ∧
      CrawlEvent.closeSession ∉ (parse_exit ⟨false, true, true, true⟩).1 := by
  decide

/-- C9 amended: the session close runs exactly on the fully successful
path; on every error exit (any of `goto`, `maximize_window`, the branch
body or the final `close_window` failing) the error propagates with the
session left open. -/
theorem session_close_paths (r : ParseRun) :
    ((parse_exit r).2 = true → CrawlEvent.closeSession ∈ (parse_exit r).1) ∧
      ((parse_exit r).2 = false →
        CrawlEvent.closeSession ∉ (parse_exit r).1) := by
  rcases r with ⟨g, m, b, w⟩
  cases g <;> cases m <;> cases b <;> cases w <;> exact (by decide)

/-- Witness for the amended C9 on the all-success run. -/
theorem session_close_paths_witness :
    CrawlEvent.closeSession ∈ (parse_exit ⟨true, true, true, true⟩).1 :=
  (session_close_paths ⟨true, true, true, true⟩).1 (by decide)

end LaptopSelector
